import Mathlib

/-!
Verification development for the external-adapter framework core.

Each definition below is a shallow embedding of a function of the
TypeScript source:

* `RedisSubscriptionSet` embeds `src/util/subscription-set/redis-sorted-set.ts`.
  Redis itself (the sorted-set commands `zadd`, `zremrangebyscore`, `zrange`)
  is modeled explicitly: a sorted set is a list of `(member, score)` pairs with
  unique members; `zrange key 0 -1` returns members ordered by score with ties
  broken lexicographically, which we realize with an insertion sort.
  JavaScript strings are modeled as `List Char`, and `String.prototype.split`
  as `splitOnChar`.  `JSON.stringify` / `JSON.parse` are external library
  functions and are carried as the `serialize` / `deserialize` fields of the
  generic set (in the source they are fixed to JSON for the generic type `T`);
  `JSON.parse` may throw, hence `deserialize` is partial and a decoded entry
  is an `Option`.

* `CacheFactory.buildCache` embeds `src/cache/factory.ts`.  A TypeScript
  function that may `throw` is embedded as `Except`; a `switch` that falls
  through without returning yields `Except.ok none` (JS `undefined`).

* `buildTransports` / `getTransportNameForRequest` embed the constructor and
  router of `src/adapter/endpoint.ts`.  JS falsiness of strings (the empty
  string is falsy in the `||` chains) is modeled by `truthyString`.

* `streamHandler` / `wsMessageHandler` embed `src/transports/websocket.ts`.
  One background tick is a pure state transition that also returns the ordered
  list of externally visible actions (socket close, socket open, message
  send).  The `Date.now()` calls of the tick are passed in as explicit
  timestamps in source order.
-/

namespace EAFramework

/-! ### JavaScript string primitives over `List Char` -/

/-- JavaScript strings modeled as lists of characters. -/
abbrev Str := List Char

/-- Lexicographic comparison of character lists (the order redis uses to break
score ties between members). -/
def strLe : Str → Str → Bool
  | [], _ => true
  | _ :: _, [] => false
  | x :: xs, y :: ys => if x = y then strLe xs ys else decide (x < y)

/-- `String.prototype.split` with a single-character separator, as in
`entry.split('>')` of the source: `"a>b>c" ↦ ["a","b","c"]`, `"" ↦ [""]`,
`"a>" ↦ ["a",""]`. -/
def splitOnChar (c : Char) : Str → List Str
  | [] => [[]]
  | x :: xs =>
    let rest := splitOnChar c xs
    if x = c then [] :: rest
    else
      match rest with
      | [] => [[x]]
      | h :: t => (x :: h) :: t

/-- ASCII lowercasing of one character (`String.prototype.toLowerCase` on the
ASCII names used for transports). -/
def charToLower (c : Char) : Char :=
  if 'A' ≤ c ∧ c ≤ 'Z' then Char.ofNat (c.toNat + 32) else c

/-- `String.prototype.toLowerCase`, applied characterwise. -/
def strToLower (s : String) : String :=
  ⟨s.data.map charToLower⟩

/-! ### Redis sorted set commands -/

/-- The delimiter of `redis-sorted-set.ts`: `const DELIMITER = '>'`. -/
def DELIMITER : Char := '>'

/-- Abstract state of one redis sorted set: members with their scores.
Members are unique; the retrieval order (by score, then lexicographically)
is recomputed by `zrangeAll`. -/
structure RedisSortedSet where
  entries : List (Str × Int)
deriving DecidableEq, Repr

/-- `ZADD key score member`: updates the score of an existing member, or
inserts the member. -/
def zadd (s : RedisSortedSet) (score : Int) (member : Str) : RedisSortedSet :=
  if s.entries.any (fun e => decide (e.1 = member)) then
    ⟨s.entries.map (fun e => if e.1 = member then (member, score) else e)⟩
  else
    ⟨s.entries ++ [(member, score)]⟩

/-- `ZREMRANGEBYSCORE key -inf max`: removes every member whose score lies in
the closed interval `[-inf, max]`, i.e. every member with `score ≤ max`
(redis range bounds are inclusive). -/
def zremrangebyscoreNegInf (s : RedisSortedSet) (maxScore : Int) : RedisSortedSet :=
  ⟨s.entries.filter (fun e => decide (maxScore < e.2))⟩

/-- Order in which `ZRANGE key 0 -1` enumerates members: ascending score,
ties broken lexicographically by member. -/
def scoreMemberOrder (a b : Str × Int) : Prop :=
  a.2 < b.2 ∨ (a.2 = b.2 ∧ strLe a.1 b.1 = true)

instance : DecidableRel scoreMemberOrder := fun a b => by
  unfold scoreMemberOrder; infer_instance

/-- `ZRANGE key 0 -1`: all members, ordered by score then member. -/
def zrangeAll (s : RedisSortedSet) : List Str :=
  (s.entries.insertionSort scoreMemberOrder).map Prod.fst

/-! ### RedisSubscriptionSet (`redis-sorted-set.ts`) -/

/-- Embedding of the `RedisSubscriptionSet<T>` class.  `serialize` and
`deserialize` stand for `JSON.stringify` and `JSON.parse` at the generic
type `T`; `store` is the redis sorted set held under the instance's
`subscriptionSetKey`. -/
structure RedisSubscriptionSet (T : Type) where
  serialize : T → Str
  deserialize : Str → Option T
  store : RedisSortedSet

/-- `add(key, value, ttl)`: stores `` `${key}${DELIMITER}${JSON.stringify(value)}` ``
with score `Date.now() + ttl` (`now` is the `Date.now()` of the call). -/
def RedisSubscriptionSet.add (S : RedisSubscriptionSet T) (key : Str) (value : T)
    (ttl now : Int) : RedisSubscriptionSet T :=
  let storedValue := key ++ DELIMITER :: S.serialize value
  { S with store := zadd S.store (now + ttl) storedValue }

/-- Decoding of one stored member in `getAll`:
`JSON.parse(entry.split(DELIMITER)[1])`.  Indexing past the end of the split
(or a failing parse) is a thrown exception in JS, modeled as `none`. -/
def decodeMember (deserialize : Str → Option T) (entry : Str) : Option T :=
  match (splitOnChar DELIMITER entry).get? 1 with
  | some s => deserialize s
  | none => none

/-- `getAll()`: first `zremrangebyscore(key, '-inf', Date.now())`, then decode
every member of `zrange(key, 0, -1)`.  Returns the updated set state together
with the decoded values. -/
def RedisSubscriptionSet.getAll (S : RedisSubscriptionSet T) (now : Int) :
    RedisSubscriptionSet T × List (Option T) :=
  let store1 := zremrangebyscoreNegInf S.store now
  ({ S with store := store1 }, (zrangeAll store1).map (decodeMember S.deserialize))

/-! ### CacheFactory (`src/cache/factory.ts`) -/

/-- Result of `CacheFactory.buildCache`: the two concrete cache classes,
parameterized by the redis client type. -/
inductive CacheInstance (RC : Type)
  | localCache
  | redisCache (client : RC)
deriving DecidableEq, Repr

/-- Embedding of `CacheFactory.buildCache(cacheType, redisClient?)`.
The `switch` has cases for `'local'` and `'redis'` and no `default`;
falling through returns JS `undefined`, modeled as `.ok none`.  A `throw`
is modeled as `.error`. -/
def buildCache (cacheType : String) (redisClient : Option RC) :
    Except String (Option (CacheInstance RC)) :=
  if cacheType = "local" then .ok (some .localCache)
  else if cacheType = "redis" then
    match redisClient with
    | none => .error "Redis client undefined. Cannot create Redis cache"
    | some c => .ok (some (.redisCache c))
  else .ok none

/-! ### AdapterEndpoint (`src/adapter/endpoint.ts`) -/

/-- `const DEFAULT_TRANSPORT_NAME = 'default_single_transport'`. -/
def DEFAULT_TRANSPORT_NAME : String := "default_single_transport"

/-- The transport-name validation of the constructor: `/^[a-z]+$/`. -/
def validTransportName (name : String) : Bool :=
  !name.data.isEmpty && name.data.all (fun c => decide ('a' ≤ c) && decide (c ≤ 'z'))

/-- The two shapes of `AdapterEndpointParams`: an explicit `transports`
record, or a single `transport`. -/
inductive TransportsParam (τ : Type)
  | map (transports : List (String × τ))
  | single (t : τ)

/-- The transports-record construction of the `AdapterEndpoint` constructor:
an explicit map has each of its names validated against `/^[a-z]+$/`
(the first offender throws); a single transport is stored under
`DEFAULT_TRANSPORT_NAME` with no validation. -/
def buildTransports : TransportsParam τ → Except String (List (String × τ))
  | .single t => .ok [(DEFAULT_TRANSPORT_NAME, t)]
  | .map ts =>
    match ts.find? (fun kv => !validTransportName kv.1) with
    | some kv =>
      .error ("Transport name \"" ++ kv.1 ++
        "\" is invalid. Names in the AdapterEndpoint transports map can only include lowercase letters.")
    | none => .ok ts

/-- The part of an `AdapterRequest` the router consults:
`req.body.data?.transport`. -/
structure RoutingRequest where
  transport : Option String

/-- The fields of `AdapterEndpoint` used by `getTransportNameForRequest`. -/
structure RoutingEndpoint (τ : Type) where
  transports : List (String × τ)
  customRouter : Option (RoutingRequest → String)
  defaultTransport : Option String

/-- Embedding of `AdapterError` (only the fields the claims mention). -/
structure AdapterError where
  statusCode : Nat
  message : String
deriving DecidableEq, Repr

/-- JS truthiness of an optional string in an `||` chain: `undefined` and the
empty string are falsy. -/
def truthyString : Option String → Option String
  | some s => if s = "" then none else some s
  | none => none

/-- Embedding of `AdapterEndpoint.getTransportNameForRequest`.  The guard is
`if (this.transports[DEFAULT_TRANSPORT_NAME])` — presence of the fixed
default key, not a count of registered transports.  Then
`(customRouter && customRouter(req, config)) || req.data.transport ||
defaultTransport`, lowercased and looked up in the record; each failure
throws an `AdapterError` with `statusCode: 400`. -/
def getTransportNameForRequest (ep : RoutingEndpoint τ) (req : RoutingRequest) :
    Except AdapterError String :=
  if (ep.transports.lookup DEFAULT_TRANSPORT_NAME).isSome then
    .ok DEFAULT_TRANSPORT_NAME
  else
    let rawTransportName :=
      (truthyString (ep.customRouter.map (fun f => f req))).orElse (fun _ =>
        (truthyString req.transport).orElse (fun _ => truthyString ep.defaultTransport))
    match rawTransportName with
    | none =>
      .error ⟨400,
        "No result was fetched from a custom router, no transport was specified in the input parameters, and this endpoint does not have a default transport set."⟩
    | some raw =>
      let transportName := strToLower raw
      if (ep.transports.lookup transportName).isSome then .ok transportName
      else .error ⟨400, "No transport found for key \"" ++ transportName ++ "\""⟩

/-! ### WebSocketTransport (`src/transports/websocket.ts`)

The transport is generic over the subscription-parameter type `P`
(`T['Request']['Params']`), the built message type `M` (what the
`subscribeMessage` / `unsubscribeMessage` builders return), and the payload
type `R` carried by provider results.  A tick of `streamHandler` is a pure
transition on `WsState` returning the ordered trace of externally visible
actions. -/

/-- `WebSocket.readyState`: CONNECTING, OPEN, CLOSING, CLOSED. -/
inductive ReadyState
  | connecting
  | opened
  | closing
  | closed
deriving DecidableEq, Repr

/-- A `ws` socket object, as far as the transport observes it. -/
structure Socket where
  readyState : ReadyState
deriving DecidableEq, Repr

/-- The mutable fields of `WebSocketTransport` (plus
`providerDataStreamEstablished`, inherited from `StreamingTransport`).
`wsConnection` is `none` before the first connection is ever established
(the TS field is declared with a definite-assignment assertion and is
`undefined` until then). -/
structure WsState (P : Type) where
  wsConnection : Option Socket
  currentUrl : String
  lastMessageReceivedAt : Int
  connectionOpenedAt : Int
  desiredSubscriptions : List P
  providerDataStreamEstablished : Int
deriving DecidableEq, Repr

/-- `connectionClosed()`: `!this.wsConnection || readyState === CLOSED`. -/
def connectionClosed (st : WsState P) : Bool :=
  match st.wsConnection with
  | none => true
  | some s => s.readyState == ReadyState.closed

/-- The `SubscriptionDeltas` argument computed by `StreamingTransport`. -/
structure SubscriptionDeltas (P : Type) where
  new : List P
  stale : List P
  desired : List P
deriving DecidableEq, Repr

/-- A payload handed to `wsConnection.send`: either a message built by a
builder, or (when the corresponding builder is absent) the raw subscription
params themselves. -/
inductive WsPayload (P M : Type)
  | msg (m : M)
  | raw (p : P)
deriving DecidableEq, Repr

/-- Externally visible actions of one `streamHandler` tick, in order:
`close` (the `wsConnection.close()` call), `openConn url`
(`establishWsConnection` at `url`), and `send` (one `wsConnection.send`). -/
inductive WsAction (P M : Type)
  | close
  | openConn (url : String)
  | send (payload : WsPayload P M)
deriving DecidableEq, Repr

/-- The optional `builders` of `WebSocketTransportConfig`, each builder itself
optional. -/
structure WsBuilders (P M : Type) where
  subscribeMessage : Option (P → M)
  unsubscribeMessage : Option (P → M)

/-- The parts of `WebSocketTransportConfig` that `streamHandler` consults:
the `url` function of the current desired subscriptions, and the builders. -/
structure WsTransportConfig (P M : Type) where
  url : List P → String
  builders : Option (WsBuilders P M)

/-- The argument lists of `sendMessages(context, subscribes, unsubscribes)`:
subscribes are built with `subscribeMessage` when present, otherwise the raw
params are passed (and likewise for unsubscribes). -/
def buildPayloads (builder : Option (P → M)) (ps : List P) : List (WsPayload P M) :=
  match builder with
  | some f => ps.map (fun p => WsPayload.msg (f p))
  | none => ps.map WsPayload.raw

/-- `sendMessages`: serializes and sends all subscribes followed by all
unsubscribes, one `send` per message. -/
def sendMessages (subscribes unsubscribes : List (WsPayload P M)) : List (WsAction P M) :=
  (subscribes ++ unsubscribes).map WsAction.send

/-- One tick of `WebSocketTransport.streamHandler`.

Explicit timestamps, in the order the source calls `Date.now()`:
`now` at the staleness check, `tEstablished` at the
`this.providerDataStreamEstablished = Date.now()` write just before
`establishWsConnection`, and `tOpened` at the
`this.connectionOpenedAt = Date.now()` write just after it.
`unresponsiveTtl` is `config.WS_SUBSCRIPTION_UNRESPONSIVE_TTL`
(a validated non-negative integer setting).

Connection establishment is modeled as succeeding (the `ConnectFailed`
rejection path aborts the tick and is outside the claims considered here). -/
def streamHandler (cfg : WsTransportConfig P M) (unresponsiveTtl : Nat)
    (now tEstablished tOpened : Int) (st0 : WsState P) (subs : SubscriptionDeltas P) :
    WsState P × List (WsAction P M) :=
  let st := { st0 with desiredSubscriptions := subs.desired }
  if subs.new.isEmpty ∧ st.wsConnection.isNone then (st, [])
  else
    let urlFromConfig := cfg.url st.desiredSubscriptions
    let timeSinceLastMessage := max 0 (now - st.lastMessageReceivedAt)
    let timeSinceConnectionOpened := max 0 (now - st.connectionOpenedAt)
    let timeSinceLastActivity := min timeSinceLastMessage timeSinceConnectionOpened
    let connectionUnresponsive : Prop :=
      0 < timeSinceLastActivity ∧ (unresponsiveTtl : Int) < timeSinceLastActivity
    let shouldClose : Prop :=
      connectionClosed st = false ∧ (st.currentUrl ≠ urlFromConfig ∨ connectionUnresponsive)
    let st1 :=
      if shouldClose then
        { st with wsConnection := st.wsConnection.map (fun s => { s with readyState := ReadyState.closing }) }
      else st
    let newSubs := if shouldClose then st.desiredSubscriptions else subs.new
    let connClosed : Prop := shouldClose ∨ connectionClosed st = true
    let doOpen : Prop := connClosed ∧ st.desiredSubscriptions.isEmpty = false
    let st2 :=
      if doOpen then
        { st1 with
          currentUrl := urlFromConfig
          providerDataStreamEstablished := tEstablished
          wsConnection := some { readyState := ReadyState.opened }
          connectionOpenedAt := tOpened }
      else st1
    let closeTrace := if shouldClose then [WsAction.close] else []
    let openTrace := if doOpen then [WsAction.openConn urlFromConfig] else []
    let sendTrace :=
      match cfg.builders with
      | none => []
      | some b =>
        sendMessages (buildPayloads b.subscribeMessage newSubs)
          (buildPayloads b.unsubscribeMessage subs.stale)
    (st2, closeTrace ++ openTrace ++ sendTrace)

/-- Timestamps attached to each result written to the ResponseCache. -/
structure WsTimestamps where
  providerDataStreamEstablished : Int
  providerDataReceived : Int
  providerIndicatedTime : Option Int
deriving DecidableEq, Repr

/-- A result returned by the user `message` handler: an opaque payload plus
the optional `response.timestamps.providerIndicatedTime` the handler set. -/
structure ProviderResult (R : Type) where
  payload : R
  providerIndicatedTime : Option Int
deriving DecidableEq, Repr

/-- A result after the inbound handler stamped its timestamps. -/
structure TimestampedResult (R : Type) where
  payload : R
  timestamps : WsTimestamps
deriving DecidableEq, Repr

/-- The inbound-message handler built by `buildConnectionHandlers`.

`handlerOutput` is what `config.handlers.message` returned (`none` for JS
`undefined`); `providerDataReceived` is the `Date.now()` taken before the
handler is invoked, and `tNow` the `Date.now()` of the
`lastMessageReceivedAt` update.  The second component of the result is the
argument of the `responseCache.write` call, or `none` when no write happens:
the write and the `lastMessageReceivedAt` update are guarded by
`Array.isArray(results)`, which holds for the empty array too. -/
def wsMessageHandler (handlerOutput : Option (List (ProviderResult R)))
    (providerDataReceived tNow : Int) (st : WsState P) :
    WsState P × Option (List (TimestampedResult R)) :=
  let results := handlerOutput.map (fun rs =>
    rs.map (fun r =>
      { payload := r.payload
        timestamps :=
          { providerDataStreamEstablished := st.providerDataStreamEstablished
            providerDataReceived := providerDataReceived
            providerIndicatedTime := r.providerIndicatedTime } }))
  match results with
  | some ws => ({ st with lastMessageReceivedAt := tNow }, some ws)
  | none => (st, none)

/-! ## Theorems -/

/-- C10: an `AdapterEndpoint` constructed with a single `transport` parameter
gets a transports record with exactly the one key
`'default_single_transport'`; the `/^[a-z]+$/` validation of the explicit-map
branch is not applied (construction succeeds), even though that fixed name
itself fails the validation. -/
theorem endpoint_single_transport_default_name {τ : Type} (t : τ) :
    buildTransports (TransportsParam.single t) = Except.ok [(DEFAULT_TRANSPORT_NAME, t)] ∧
    validTransportName DEFAULT_TRANSPORT_NAME = false := by
  exact ⟨rfl, by decide⟩

/-- C10 witness: the theorem instantiated at a concrete transport value. -/
theorem endpoint_single_transport_default_name_witness :
    buildTransports (TransportsParam.single ()) =
      Except.ok [(DEFAULT_TRANSPORT_NAME, ())] ∧
    validTransportName DEFAULT_TRANSPORT_NAME = false :=
  endpoint_single_transport_default_name ()

/-- C8 counterexample: `buildCache` applied to the string `"memcached"`
(outside `{local, redis}`) does not raise an error; the `switch` falls
through and the function returns `undefined` (`.ok none`). -/
theorem buildCache_unknown_type_cex :
    buildCache "memcached" (none : Option Unit) = Except.ok none := by
  rfl

/-- C8 (amended): `buildCache` yields a `LocalCache` for `'local'`, a
`RedisCache` for `'redis'` with a client, throws for `'redis'` without a
client, and for any other string returns `undefined` without raising. -/
theorem buildCache_behavior {RC : Type} (rc : Option RC) (c : RC) (s : String)
    (h1 : s ≠ "local") (h2 : s ≠ "redis") :
    buildCache "local" rc = Except.ok (some CacheInstance.localCache) ∧
    buildCache "redis" (some c) = Except.ok (some (CacheInstance.redisCache c)) ∧
    buildCache "redis" (none : Option RC) =
      Except.error "Redis client undefined. Cannot create Redis cache" ∧
    buildCache s rc = Except.ok none := by
  refine ⟨rfl, rfl, rfl, ?_⟩
  unfold buildCache
  rw [if_neg h1, if_neg h2]

/-- C8 witness: the amended theorem applied at the concrete type string
`"foo"`. -/
theorem buildCache_behavior_witness :
    ("foo" ≠ "local" ∧ "foo" ≠ "redis") ∧
      buildCache "foo" (none : Option Unit) = Except.ok none :=
  ⟨by decide, (@buildCache_behavior Unit none () "foo" (by decide) (by decide)).2.2.2⟩

/-- C7 counterexample: an endpoint whose explicit transports map registers
exactly one transport (`"ws"`) is not routed to it; with no custom router,
no `transport` request field and no default transport the router throws a
400 instead of using the single registered transport. -/
theorem endpoint_single_map_transport_cex :
    getTransportNameForRequest
        (⟨[("ws", ())], none, none⟩ : RoutingEndpoint Unit) ⟨none⟩ =
      Except.error ⟨400,
        "No result was fetched from a custom router, no transport was specified in the input parameters, and this endpoint does not have a default transport set."⟩ ∧
    ([("ws", ())] : List (String × Unit)).length = 1 := by
  exact ⟨rfl, rfl⟩

/-- C7 (amended): `getTransportNameForRequest` uses the fixed
`'default_single_transport'` key when it is present in the transports record
(the single-`transport` constructor form); otherwise it takes the first
non-empty candidate among the custom router result, the request's
`data.transport` field and the endpoint's `defaultTransport`, lowercases it
and looks it up; no candidate resolves to a 400 error, and a resolved name
absent from the record is also a 400 error. -/
theorem endpoint_route_precedence {τ : Type} (ep : RoutingEndpoint τ) (req : RoutingRequest) :
    ((ep.transports.lookup DEFAULT_TRANSPORT_NAME).isSome = true →
      getTransportNameForRequest ep req = Except.ok DEFAULT_TRANSPORT_NAME) ∧
    (∀ f, (ep.transports.lookup DEFAULT_TRANSPORT_NAME).isSome = false →
      ep.customRouter = some f → f req ≠ "" →
      getTransportNameForRequest ep req =
        (if (ep.transports.lookup (strToLower (f req))).isSome then
          Except.ok (strToLower (f req))
        else Except.error ⟨400,
          "No transport found for key \"" ++ strToLower (f req) ++ "\""⟩)) ∧
    (∀ s, (ep.transports.lookup DEFAULT_TRANSPORT_NAME).isSome = false →
      truthyString (ep.customRouter.map (fun f => f req)) = none →
      req.transport = some s → s ≠ "" →
      getTransportNameForRequest ep req =
        (if (ep.transports.lookup (strToLower s)).isSome then
          Except.ok (strToLower s)
        else Except.error ⟨400, "No transport found for key \"" ++ strToLower s ++ "\""⟩)) ∧
    (∀ d, (ep.transports.lookup DEFAULT_TRANSPORT_NAME).isSome = false →
      truthyString (ep.customRouter.map (fun f => f req)) = none →
      truthyString req.transport = none →
      ep.defaultTransport = some d → d ≠ "" →
      getTransportNameForRequest ep req =
        (if (ep.transports.lookup (strToLower d)).isSome then
          Except.ok (strToLower d)
        else Except.error ⟨400, "No transport found for key \"" ++ strToLower d ++ "\""⟩)) ∧
    ((ep.transports.lookup DEFAULT_TRANSPORT_NAME).isSome = false →
      truthyString (ep.customRouter.map (fun f => f req)) = none →
      truthyString req.transport = none →
      truthyString ep.defaultTransport = none →
      getTransportNameForRequest ep req = Except.error ⟨400,
        "No result was fetched from a custom router, no transport was specified in the input parameters, and this endpoint does not have a default transport set."⟩) := by
  refine ⟨?_, ?_, ?_, ?_, ?_⟩
  · intro h
    simp [getTransportNameForRequest, h]
  · intro f hdef hcr hne
    simp [getTransportNameForRequest, hdef, hcr, truthyString, hne, Option.orElse]
  · intro s hdef hcr hs hne
    simp only [getTransportNameForRequest, hcr, hs]
    simp [hdef, truthyString, hne, Option.orElse]
  · intro d hdef hcr hreq hd hne
    simp only [getTransportNameForRequest, hcr, hreq, hd]
    simp [hdef, truthyString, hne, Option.orElse]
  · intro hdef hcr hreq hd
    simp [getTransportNameForRequest, hdef, hcr, hreq, hd, Option.orElse]

/-- C7 witness: the amended precedence theorem applied to a concrete
endpoint with the default single-transport key. -/
theorem endpoint_route_precedence_witness :
    (([(DEFAULT_TRANSPORT_NAME, ())] : List (String × Unit)).lookup
        DEFAULT_TRANSPORT_NAME).isSome = true ∧
    getTransportNameForRequest
        (⟨[(DEFAULT_TRANSPORT_NAME, ())], none, none⟩ : RoutingEndpoint Unit) ⟨none⟩ =
      Except.ok DEFAULT_TRANSPORT_NAME :=
  ⟨by decide,
    (endpoint_route_precedence
      (⟨[(DEFAULT_TRANSPORT_NAME, ())], none, none⟩ : RoutingEndpoint Unit) ⟨none⟩).1
      (by decide)⟩

/-! ### Lemmas about the split/encode pair and the sorted set -/

/-- Splitting a string that does not contain the separator yields that string
as the single fragment. -/
theorem splitOnChar_of_not_mem {c : Char} {l : Str} (h : c ∉ l) :
    splitOnChar c l = [l] := by
  induction l with
  | nil => rfl
  | cons x xs ih =>
    have hx : x ≠ c := fun hxc => h (hxc ▸ List.mem_cons_self x xs)
    have hxs : c ∉ xs := fun hc => h (List.mem_cons_of_mem x hc)
    simp [splitOnChar, hx, ih hxs]

/-- Splitting `key ++ c :: rest` where the separator does not occur in `key`
peels off `key` as the first fragment. -/
theorem splitOnChar_append_delim {c : Char} {key : Str} (rest : Str) (hk : c ∉ key) :
    splitOnChar c (key ++ c :: rest) = key :: splitOnChar c rest := by
  induction key with
  | nil => simp [splitOnChar]
  | cons k ks ih =>
    have hkc : k ≠ c := fun h => hk (h ▸ List.mem_cons_self k ks)
    have hks : c ∉ ks := fun h => hk (List.mem_cons_of_mem k h)
    have hne : splitOnChar c (ks ++ c :: rest) = ks :: splitOnChar c rest := ih hks
    simp [splitOnChar, hkc, hne]

/-- The delimiter-encoded member splits back into exactly the key and the
serialized value when neither contains the delimiter. -/
theorem splitOnChar_encode {c : Char} {key json : Str} (hk : c ∉ key) (hj : c ∉ json) :
    splitOnChar c (key ++ c :: json) = [key, json] := by
  rw [splitOnChar_append_delim json hk, splitOnChar_of_not_mem hj]

/-- `zadd` leaves the member present with the given score, whether it was
inserted or its score was updated. -/
theorem zadd_mem (s : RedisSortedSet) (score : Int) (member : Str) :
    (member, score) ∈ (zadd s score member).entries := by
  unfold zadd
  by_cases h : s.entries.any (fun e => decide (e.1 = member)) = true
  · rw [if_pos h]
    rcases List.any_eq_true.mp h with ⟨e, he, hee⟩
    have heq : e.1 = member := of_decide_eq_true hee
    exact List.mem_map.mpr ⟨e, he, by simp [heq]⟩
  · rw [if_neg h]
    exact List.mem_append_right _ (List.mem_singleton.mpr rfl)

/-- C5: `add(key, value, ttl)` stores the member `key ++ '>' ++ JSON(value)`
with score `now + ttl`, and when neither the key nor the serialized value
contains the delimiter (and JSON parsing inverts serialization on the
value), a `getAll` before the expiry score yields the original value back. -/
theorem redis_add_getAll_roundtrip {T : Type} (S : RedisSubscriptionSet T)
    (key : Str) (v : T) (ttl now now2 : Int)
    (hkey : DELIMITER ∉ key)
    (hval : DELIMITER ∉ S.serialize v)
    (hrt : S.deserialize (S.serialize v) = some v)
    (hexp : now2 < now + ttl) :
    (key ++ DELIMITER :: S.serialize v, now + ttl) ∈ (S.add key v ttl now).store.entries ∧
    some v ∈ ((S.add key v ttl now).getAll now2).2 := by
  have hmem : (key ++ DELIMITER :: S.serialize v, now + ttl) ∈
      (S.add key v ttl now).store.entries :=
    zadd_mem S.store (now + ttl) (key ++ DELIMITER :: S.serialize v)
  refine ⟨hmem, ?_⟩
  have hmem2 : (key ++ DELIMITER :: S.serialize v, now + ttl) ∈
      (zremrangebyscoreNegInf (S.add key v ttl now).store now2).entries := by
    unfold zremrangebyscoreNegInf
    exact List.mem_filter.mpr ⟨hmem, by simpa using hexp⟩
  have hmem3 : (key ++ DELIMITER :: S.serialize v) ∈
      zrangeAll (zremrangebyscoreNegInf (S.add key v ttl now).store now2) := by
    unfold zrangeAll
    exact List.mem_map.mpr ⟨(key ++ DELIMITER :: S.serialize v, now + ttl),
      (List.perm_insertionSort scoreMemberOrder _).mem_iff.mpr hmem2, rfl⟩
  have hdec : decodeMember S.deserialize (key ++ DELIMITER :: S.serialize v) = some v := by
    unfold decodeMember
    rw [splitOnChar_encode hkey hval]
    simpa using hrt
  exact List.mem_map.mpr ⟨key ++ DELIMITER :: S.serialize v, hmem3, hdec⟩

/-- C5 witness: the round trip applied to a concrete boolean set (JSON of a
boolean is `true`/`false`), key `"k"`, ttl 1000 at time 5000, read at 5500. -/
theorem redis_add_getAll_roundtrip_witness :
    (DELIMITER ∉ ("k".data : Str) ∧ (5500 : Int) < 5000 + 1000) ∧
    some true ∈
      ((RedisSubscriptionSet.add (T := Bool)
        { serialize := fun b => if b then "true".data else "false".data
          deserialize := fun s => if s = "true".data then some true else none
          store := ⟨[]⟩ } "k".data true 1000 5000).getAll 5500).2 :=
  ⟨⟨by decide, by decide⟩,
    (redis_add_getAll_roundtrip
      { serialize := fun b => if b then "true".data else "false".data
        deserialize := fun s => if s = "true".data then some true else none
        store := ⟨[]⟩ } "k".data true 1000 5000 5500
      (by decide) (by decide) (by decide) (by decide)).2⟩

/-- C6 counterexample: an entry whose score equals the current time does not
survive `getAll` — `zremrangebyscore(key, '-inf', now)` is inclusive of
`now` — so with a single entry of score 100, `getAll` at time 100 removes it
and returns nothing, where the claim says it survives and is returned. -/
theorem redis_getAll_removes_score_eq_now_cex :
    (RedisSubscriptionSet.getAll (T := Bool)
        { serialize := fun b => if b then "true".data else "false".data
          deserialize := fun s => if s = "true".data then some true else none
          store := ⟨[("k".data ++ DELIMITER :: "true".data, 100)]⟩ } 100).1.store.entries
      = [] ∧
    (RedisSubscriptionSet.getAll (T := Bool)
        { serialize := fun b => if b then "true".data else "false".data
          deserialize := fun s => if s = "true".data then some true else none
          store := ⟨[("k".data ++ DELIMITER :: "true".data, 100)]⟩ } 100).2
      = [] := by
  exact ⟨rfl, rfl⟩

/-- C6 (amended): `getAll` first removes exactly the members whose score is
less than *or equal to* the current time (redis score ranges are inclusive,
so an entry whose score equals the current time is removed), then returns
every remaining member decoded. -/
theorem redis_getAll_removes_le_now {T : Type} (S : RedisSubscriptionSet T) (now : Int) :
    ((S.getAll now).1.store.entries = S.store.entries.filter (fun e => decide (now < e.2))) ∧
    (∀ e, e ∈ (S.getAll now).1.store.entries ↔ (e ∈ S.store.entries ∧ now < e.2)) ∧
    ((S.getAll now).2 = (zrangeAll (S.getAll now).1.store).map (decodeMember S.deserialize)) ∧
    (∀ m, m ∈ zrangeAll (S.getAll now).1.store ↔
      m ∈ ((S.getAll now).1.store.entries).map Prod.fst) := by
  refine ⟨rfl, ?_, rfl, ?_⟩
  · intro e
    constructor
    · intro he
      have := List.mem_filter.mp he
      exact ⟨this.1, by simpa using this.2⟩
    · intro ⟨he, hlt⟩
      exact List.mem_filter.mpr ⟨he, by simpa using hlt⟩
  · intro m
    unfold zrangeAll
    constructor
    · intro hm
      rcases List.mem_map.mp hm with ⟨e, he, rfl⟩
      exact List.mem_map.mpr ⟨e, (List.perm_insertionSort scoreMemberOrder _).mem_iff.mp he, rfl⟩
    · intro hm
      rcases List.mem_map.mp hm with ⟨e, he, rfl⟩
      exact List.mem_map.mpr ⟨e, (List.perm_insertionSort scoreMemberOrder _).mem_iff.mpr he, rfl⟩

/-- C6 witness: the amended theorem applied to a concrete set holding one
live entry (score 200) and one expired entry (score 100), read at time 150:
exactly the live entry survives. -/
theorem redis_getAll_removes_le_now_witness :
    ((RedisSubscriptionSet.getAll (T := Bool)
        { serialize := fun b => if b then "true".data else "false".data
          deserialize := fun s => if s = "true".data then some true else none
          store := ⟨[("a".data ++ DELIMITER :: "true".data, 100),
                     ("b".data ++ DELIMITER :: "true".data, 200)]⟩ } 150).1.store.entries
      = [("b".data ++ DELIMITER :: "true".data, 200)]) :=
  (redis_getAll_removes_le_now
    { serialize := fun b => if b then "true".data else "false".data
      deserialize := fun s => if s = "true".data then some true else none
      store := ⟨[("a".data ++ DELIMITER :: "true".data, 100),
                 ("b".data ++ DELIMITER :: "true".data, 200)]⟩ } 150).1.trans (by decide)

/-! ### WebSocket tick theorems -/

/-- Recognizes the `send` actions of a tick trace. -/
def isSendAction : WsAction P M → Bool
  | .send _ => true
  | _ => false

/-- C1: on a tick where the connection is open and
`min(now − lastMessageReceivedAt, now − connectionOpenedAt)` exceeds
`WS_SUBSCRIPTION_UNRESPONSIVE_TTL`, the socket is closed, and the close
precedes every subscribe or unsubscribe send of that tick. -/
theorem ws_unresponsive_close_before_sends {P M : Type} (cfg : WsTransportConfig P M)
    (ttl : Nat) (now t1 t2 : Int) (st : WsState P) (subs : SubscriptionDeltas P)
    (hopen : st.wsConnection = some ⟨ReadyState.opened⟩)
    (hlt : (ttl : Int) <
      min (now - st.lastMessageReceivedAt) (now - st.connectionOpenedAt)) :
    WsAction.close ∈ (streamHandler cfg ttl now t1 t2 st subs).2 ∧
    ∀ j (p : WsPayload P M),
      (streamHandler cfg ttl now t1 t2 st subs).2.get? j = some (WsAction.send p) →
      ∃ i, i < j ∧ (streamHandler cfg ttl now t1 t2 st subs).2.get? i = some WsAction.close := by
  have ha : 0 < min (max 0 (now - st.lastMessageReceivedAt))
      (max 0 (now - st.connectionOpenedAt)) := by omega
  have hb : (ttl : Int) < min (max 0 (now - st.lastMessageReceivedAt))
      (max 0 (now - st.connectionOpenedAt)) := by omega
  have hhead : (streamHandler cfg ttl now t1 t2 st subs).2.get? 0 = some WsAction.close := by
    simp [streamHandler, hopen, connectionClosed, ha, hb]
  refine ⟨List.get?_mem hhead, ?_⟩
  intro j p hj
  have hj0 : j ≠ 0 := by
    intro h
    rw [h, hhead] at hj
    cases hj
  exact ⟨0, Nat.pos_of_ne_zero hj0, hhead⟩

/-- C1 witness: the theorem applied to a concrete open, unresponsive
connection (ttl 1000, last message 10000 ms ago, opened 5000 ms ago). -/
theorem ws_unresponsive_close_before_sends_witness :
    ((1000 : Nat) : Int) < min ((10000 : Int) - 0) ((10000 : Int) - 5000) ∧
    WsAction.close ∈
      (streamHandler
        (⟨fun _ => "wss://a",
          some ⟨some (fun p => p), some (fun p => p)⟩⟩ : WsTransportConfig Nat Nat)
        1000 10000 10100 10200
        ⟨some ⟨ReadyState.opened⟩, "wss://a", 0, 5000, [], 0⟩ ⟨[1], [], [1]⟩).2 :=
  ⟨by decide,
    (ws_unresponsive_close_before_sends
      (⟨fun _ => "wss://a",
        some ⟨some (fun p => p), some (fun p => p)⟩⟩ : WsTransportConfig Nat Nat)
      1000 10000 10100 10200
      ⟨some ⟨ReadyState.opened⟩, "wss://a", 0, 5000, [], 0⟩ ⟨[1], [], [1]⟩
      rfl (by decide)).1⟩

/-- C9 counterexample: a tick with an empty new-subscriptions delta on a
*disconnected* transport — the socket object exists but its ready state is
CLOSED — does not skip: the early return tests `!this.wsConnection`, not
`connectionClosed()`, so with a non-empty desired set the tick reopens a
connection. -/
theorem ws_closed_socket_no_skip_cex :
    connectionClosed (⟨some ⟨ReadyState.closed⟩, "wss://x", 0, 0, [], 0⟩ : WsState Nat) = true ∧
    streamHandler (⟨fun _ => "wss://x", none⟩ : WsTransportConfig Nat Nat)
        1000 0 5 6
        ⟨some ⟨ReadyState.closed⟩, "wss://x", 0, 0, [], 0⟩ ⟨[], [], [7]⟩ =
      (⟨some ⟨ReadyState.opened⟩, "wss://x", 0, 6, [7], 5⟩,
        [WsAction.openConn "wss://x"]) := by
  exact ⟨rfl, by decide⟩

/-- C9 (amended): a tick with an empty new-subscriptions delta on a transport
that never connected (`wsConnection` is still `undefined`) returns
immediately: no connection is opened and no message is sent. -/
theorem ws_skip_when_no_connection {P M : Type} (cfg : WsTransportConfig P M)
    (ttl : Nat) (now t1 t2 : Int) (st : WsState P) (subs : SubscriptionDeltas P)
    (hnew : subs.new.isEmpty = true)
    (hconn : st.wsConnection = none) :
    streamHandler cfg ttl now t1 t2 st subs =
      ({ st with desiredSubscriptions := subs.desired }, []) := by
  simp [streamHandler, hnew, hconn]

/-- C9 witness: the amended skip theorem at a concrete never-connected
state. -/
theorem ws_skip_when_no_connection_witness :
    streamHandler (⟨fun _ => "wss://x", none⟩ : WsTransportConfig Nat Nat)
        1000 0 5 6 ⟨none, "", 0, 0, [], 0⟩ ⟨[], [], [7]⟩ =
      (⟨none, "", 0, 0, [7], 0⟩, []) :=
  ws_skip_when_no_connection (⟨fun _ => "wss://x", none⟩ : WsTransportConfig Nat Nat)
    1000 0 5 6 ⟨none, "", 0, 0, [], 0⟩ ⟨[], [], [7]⟩ rfl rfl

/-- C3 counterexample: an inbound message for which the user handler returns
the *empty* array does update `lastMessageReceivedAt` (the guard is
`Array.isArray(results)`, which the empty array passes), and triggers a
(zero-entry) cache write — where the claim says an empty array leaves the
timestamp unchanged. -/
theorem ws_message_empty_array_updates_cex :
    (wsMessageHandler (R := Unit) (P := Nat) (some []) 5 10
        ⟨none, "", 0, 0, [], 0⟩).1.lastMessageReceivedAt = 10 ∧
    (wsMessageHandler (R := Unit) (P := Nat) (some []) 5 10
        ⟨none, "", 0, 0, [], 0⟩).2 = some [] ∧
    (10 : Int) ≠ 0 := by
  exact ⟨rfl, rfl, by decide⟩

/-- C3 (amended): `lastMessageReceivedAt` is updated if and only if the user
message handler returns an array — empty or not; only a handler returning
`undefined` leaves it unchanged.  The cache write happens under exactly the
same condition. -/
theorem ws_lastMessageReceivedAt_update_iff {P R : Type}
    (out : Option (List (ProviderResult R))) (tRecv tNow : Int) (st : WsState P) :
    (wsMessageHandler out tRecv tNow st).1.lastMessageReceivedAt =
      (if out.isSome then tNow else st.lastMessageReceivedAt) ∧
    ((wsMessageHandler out tRecv tNow st).2.isSome ↔ out.isSome) := by
  cases out <;> simp [wsMessageHandler]

/-- C3 witness: the amended theorem at a concrete handler returning
`undefined`: the timestamp (3) is left unchanged. -/
theorem ws_lastMessageReceivedAt_update_iff_witness :
    (wsMessageHandler (R := Unit) (P := Nat) none 5 10
        ⟨none, "", 3, 0, [], 0⟩).1.lastMessageReceivedAt = 3 :=
  ((ws_lastMessageReceivedAt_update_iff (R := Unit) (P := Nat) none 5 10
      ⟨none, "", 3, 0, [], 0⟩).1).trans (by decide)

/-- C2 counterexample: on a URL-change tick of a transport configured
*without* builders, the socket is closed and reopened at the new URL but no
subscribe message is sent for any desired subscription (the send step is
guarded by `if (this.config.builders)`), where the claim promises subscribe
messages for every desired subscription on every such tick. -/
theorem ws_urlchange_no_builders_cex :
    streamHandler (⟨fun _ => "wss://b", none⟩ : WsTransportConfig Nat Nat)
        100000 10000 10100 10200
        ⟨some ⟨ReadyState.opened⟩, "wss://a", 9999, 9999, [1], 0⟩ ⟨[2], [], [1, 2]⟩ =
      (⟨some ⟨ReadyState.opened⟩, "wss://b", 9999, 10200, [1, 2], 10100⟩,
        [WsAction.close, WsAction.openConn "wss://b"]) ∧
    ([WsAction.close, WsAction.openConn "wss://b"] : List (WsAction Nat Nat)).countP
        isSendAction = 0 := by
  exact ⟨by decide, by decide⟩

/-- C2 (amended): on a tick where the connection is open and the configured
url function applied to the desired subscriptions differs from `currentUrl`,
and the transport is configured with builders (subscribe and unsubscribe
message builders present), `streamHandler` closes the socket, replaces the
new-subscriptions delta with the full desired set, opens a connection to the
new URL when the desired set is non-empty, and sends a subscribe message for
every desired subscription (followed by unsubscribes for the stale ones). -/
theorem ws_urlchange_reconnect_resubscribe {P M : Type} (cfg : WsTransportConfig P M)
    (ttl : Nat) (now t1 t2 : Int) (st : WsState P) (subs : SubscriptionDeltas P)
    (b : WsBuilders P M) (f g : P → M)
    (hopen : st.wsConnection = some ⟨ReadyState.opened⟩)
    (hurl : st.currentUrl ≠ cfg.url subs.desired)
    (hb : cfg.builders = some b)
    (hsub : b.subscribeMessage = some f)
    (hunsub : b.unsubscribeMessage = some g) :
    (streamHandler cfg ttl now t1 t2 st subs).2 =
      WsAction.close ::
        ((if subs.desired.isEmpty then ([] : List (WsAction P M))
          else [WsAction.openConn (cfg.url subs.desired)]) ++
         (subs.desired.map (fun p => WsAction.send (WsPayload.msg (f p))) ++
          subs.stale.map (fun p => WsAction.send (WsPayload.msg (g p))))) ∧
    (subs.desired.isEmpty = false →
      (streamHandler cfg ttl now t1 t2 st subs).1.currentUrl = cfg.url subs.desired) := by
  constructor
  · cases hd : subs.desired.isEmpty <;>
      simp [streamHandler, hopen, connectionClosed, hurl, hb, hsub, hunsub, sendMessages,
        buildPayloads, hd, Function.comp_def]
  · intro hd
    simp [streamHandler, hopen, connectionClosed, hurl, hd]

/-- C2 witness: the amended theorem at a concrete tick — url changes from
`wss://a` to `wss://b` with desired `{1, 2}`: close, open `wss://b`,
subscribe both. -/
theorem ws_urlchange_reconnect_resubscribe_witness :
    (streamHandler
        (⟨fun _ => "wss://b",
          some ⟨some (fun p => p + 100), some (fun p => p + 200)⟩⟩ :
          WsTransportConfig Nat Nat)
        100000 10000 10100 10200
        ⟨some ⟨ReadyState.opened⟩, "wss://a", 9999, 9999, [1], 0⟩ ⟨[2], [], [1, 2]⟩).2 =
      [WsAction.close, WsAction.openConn "wss://b",
        WsAction.send (WsPayload.msg 101), WsAction.send (WsPayload.msg 102)] :=
  ((ws_urlchange_reconnect_resubscribe
      (⟨fun _ => "wss://b",
        some ⟨some (fun p => p + 100), some (fun p => p + 200)⟩⟩ :
        WsTransportConfig Nat Nat)
      100000 10000 10100 10200
      ⟨some ⟨ReadyState.opened⟩, "wss://a", 9999, 9999, [1], 0⟩ ⟨[2], [], [1, 2]⟩
      ⟨some (fun p => p + 100), some (fun p => p + 200)⟩
      (fun p => p + 100) (fun p => p + 200)
      rfl (by decide) rfl rfl rfl).1).trans (by decide)

/-- C4 counterexample: a tick opens a connection with
`providerDataStreamEstablished = Date.now()` stamped *before*
`establishWsConnection` (here 100) and `connectionOpenedAt = Date.now()`
stamped *after* it (here 105); a subsequent inbound message is written with
`timestamps.providerDataStreamEstablished = 100 ≠ connectionOpenedAt = 105`,
where the claim says the write carries `connectionOpenedAt`. -/
theorem ws_pdse_ne_connectionOpenedAt_cex :
    (streamHandler (⟨fun _ => "wss://a", none⟩ : WsTransportConfig Nat Nat)
        1000 50 100 105 ⟨none, "", 0, 0, [], 0⟩ ⟨[1], [], [1]⟩).1 =
      ⟨some ⟨ReadyState.opened⟩, "wss://a", 0, 105, [1], 100⟩ ∧
    (wsMessageHandler (R := Nat) (some [⟨7, none⟩]) 200 201
        (⟨some ⟨ReadyState.opened⟩, "wss://a", 0, 105, [1], 100⟩ : WsState Nat)).2 =
      some [⟨7, ⟨100, 200, none⟩⟩] ∧
    (100 : Int) ≠ 105 := by
  exact ⟨by decide, rfl, by decide⟩

/-- C4 (amended): every result written to the ResponseCache from an inbound
message carries `timestamps.providerDataStreamEstablished` equal to the
transport's `providerDataStreamEstablished` field — the `Date.now()` taken
immediately *before* the connection is established on the opening tick — not
the later `connectionOpenedAt`. -/
theorem ws_write_timestamps_use_stream_established {P M R : Type}
    (cfg : WsTransportConfig P M) (ttl : Nat) (now t1 t2 tRecv tNow : Int)
    (st : WsState P) (subs : SubscriptionDeltas P)
    (out : Option (List (ProviderResult R))) (ws : List (TimestampedResult R))
    (r : TimestampedResult R)
    (hconn : st.wsConnection = none)
    (hnew : subs.new.isEmpty = false)
    (hdes : subs.desired.isEmpty = false)
    (hout : (wsMessageHandler out tRecv tNow
      (streamHandler cfg ttl now t1 t2 st subs).1).2 = some ws)
    (hr : r ∈ ws) :
    r.timestamps.providerDataStreamEstablished = t1 := by
  have hpdse : (streamHandler cfg ttl now t1 t2 st subs).1.providerDataStreamEstablished
      = t1 := by
    simp [streamHandler, hconn, hnew, hdes, connectionClosed]
  cases out with
  | none => simp [wsMessageHandler] at hout
  | some rs =>
    simp [wsMessageHandler] at hout
    rw [← hout] at hr
    rcases List.mem_map.mp hr with ⟨r0, _, hr0⟩
    rw [← hr0]
    exact hpdse

/-- C4 witness: the amended theorem at the concrete opening tick of the
counterexample — the written result carries the pre-establishment timestamp
100. -/
theorem ws_write_timestamps_use_stream_established_witness :
    (wsMessageHandler (R := Nat) (some [⟨7, none⟩]) 200 201
        (streamHandler (⟨fun _ => "wss://a", none⟩ : WsTransportConfig Nat Nat)
          1000 50 100 105 ⟨none, "", 0, 0, [], 0⟩ ⟨[1], [], [1]⟩).1).2 =
      some [⟨7, ⟨100, 200, none⟩⟩] ∧
    (⟨7, ⟨100, 200, none⟩⟩ : TimestampedResult Nat).timestamps.providerDataStreamEstablished
      = 100 :=
  ⟨by decide,
    ws_write_timestamps_use_stream_established
      (⟨fun _ => "wss://a", none⟩ : WsTransportConfig Nat Nat)
      1000 50 100 105 200 201 ⟨none, "", 0, 0, [], 0⟩ ⟨[1], [], [1]⟩
      (some [⟨7, none⟩]) [⟨7, ⟨100, 200, none⟩⟩] ⟨7, ⟨100, 200, none⟩⟩
      rfl rfl rfl (by decide) (by decide)⟩

end EAFramework
